import Mathlib

/-!
Shallow embedding of the fastapi-sagemaker service, covering the parts of the
code that the verified claims are about:

* src/sagemaker_client.py : input normalization (SageMakerClient.prepare_input),
  invocation wrapping (SageMakerClient.predict), response projection
  (SageMakerClient.process_response) and metadata retrieval
  (SageMakerClient.get_model_info);
* src/main.py : the single prediction handler (predict) and the batch handler
  (predict_batch);
* src/models.py : the PredictionRequest and PredictionResponse records.

Python JSON-like data is embedded as the inductive type Value below. Python
exceptions are embedded as Except String (the string is the exception
message). Remote AWS calls are oracle fields of the SageMakerClient
structure, so theorems quantify over every possible behaviour of the
remote service.
-/

/-- A Python value as handled by the service: JSON data (null, bool, number,
string, list, dict with string keys in insertion order) plus `unserial t`,
standing for a Python object of type `t` that json.dumps cannot encode
(for example a set). Numbers are embedded as integers; nothing in the
verified logic depends on float arithmetic. -/
inductive Value where
  | null : Value
  | bool : Bool → Value
  | num : Int → Value
  | str : String → Value
  | list : List Value → Value
  | dict : List (String × Value) → Value
  | unserial : String → Value

/-- Python dict membership test, "k in d". -/
def containsKey (kvs : List (String × Value)) (k : String) : Bool :=
  kvs.any (fun p => p.1 == k)

/-- Python d.get(k): the value stored at k, if any. -/
def lookupKey (kvs : List (String × Value)) (k : String) : Option Value :=
  (kvs.find? (fun p => p.1 == k)).map (fun p => p.2)

/-- Python d.get(k) with a None default collapsed into the value domain:
absent keys read as null, matching how the service treats a missing
"prediction" field. -/
def getVal (kvs : List (String × Value)) (k : String) : Value :=
  (lookupKey kvs k).getD Value.null

mutual

/-- The Python type name of the first value json.dumps would choke on while
serializing, traversing the structure in serialization order; none when
the whole value is JSON-serializable. Models the TypeError raised by
json.dumps in sagemaker_client.py line 111. -/
def firstUnserial : Value → Option String
  | Value.null => none
  | Value.bool _ => none
  | Value.num _ => none
  | Value.str _ => none
  | Value.unserial t => some t
  | Value.list vs => firstUnserialInList vs
  | Value.dict kvs => firstUnserialInDict kvs

/-- Helper of firstUnserial for list elements, in order. -/
def firstUnserialInList : List Value → Option String
  | [] => none
  | v :: vs =>
      match firstUnserial v with
      | some t => some t
      | none => firstUnserialInList vs

/-- Helper of firstUnserial for dict entries, in insertion order. -/
def firstUnserialInDict : List (String × Value) → Option String
  | [] => none
  | (_, v) :: kvs =>
      match firstUnserial v with
      | some t => some t
      | none => firstUnserialInDict kvs

end

/-- Wire-level outcome of one successful invoke_endpoint call plus body
decoding: the decoded JSON body, the wall-clock elapsed milliseconds
measured around the call, and the ResponseMetadata mapping. -/
structure InvokeOutcome where
  body : Value
  elapsed_ms : Nat
  metadata : Value

/-- Result of the control-plane describe_endpoint call
(sagemaker_client.py line 204), restricted to the fields the code reads. -/
structure EndpointDesc where
  endpointConfigName : String
  endpointStatus : String
  creationTime : Option String
  lastModifiedTime : Option String
  endpointArn : Option String

/-- One production variant of an endpoint configuration; the code only
reads its InstanceType, which may be absent. -/
structure ProductionVariant where
  instanceType : Option String

/-- Result of the control-plane describe_endpoint_config call
(sagemaker_client.py line 209). -/
structure EndpointConfigDesc where
  productionVariants : List ProductionVariant

/-- The SageMakerClient instance state: configuration read at startup
(endpoint_name may be unset, region and model_name have defaults) together
with oracles for the three remote AWS calls. An oracle returning
Except.error e is the remote call raising an exception with message e. -/
structure SageMakerClient where
  endpoint_name : Option String
  region : String
  model_name : String
  invoke_endpoint : Value → Except String InvokeOutcome
  describe_endpoint : String → Except String EndpointDesc
  describe_endpoint_config : String → Except String EndpointConfigDesc

namespace SageMakerClient

/-- The normalization cascade of prepare_input
(sagemaker_client.py lines 91-108). The _convert_to_dict preprocessing of
line 88 is the identity here: Value has no separate pydantic-model
constructor, a typed question/context pair is already its dict form.
Branch order as in the source: a dict with an "inputs" key is used
unchanged; else a dict with both "question" and "context" keys is wrapped
as a two-field inputs object; else a dict is wrapped whole; else the
non-dict payload is wrapped whole. -/
def prepare_envelope : Value → Value
  | Value.dict kvs =>
      if containsKey kvs "inputs" then Value.dict kvs
      else if containsKey kvs "question" && containsKey kvs "context" then
        Value.dict [("inputs",
          Value.dict [("question", getVal kvs "question"),
                      ("context", getVal kvs "context")])]
      else Value.dict [("inputs", Value.dict kvs)]
  | data => Value.dict [("inputs", data)]

/-- SageMakerClient.prepare_input (sagemaker_client.py lines 75-118): run
the cascade, then serialize with json.dumps. A serialization failure is
caught and re-raised as ValueError with the message of line 118, whose
tail is the TypeError text naming the type of the offending object. On
success the source returns the JSON text of the envelope; the embedding
returns the envelope itself, which carries the same information. -/
def prepare_input (data : Value) : Except String Value :=
  let input_data := prepare_envelope data
  match firstUnserial input_data with
  | some t =>
      Except.error ("Failed to prepare input data: Object of type " ++ t
        ++ " is not JSON serializable")
  | none => Except.ok input_data

/-- SageMakerClient.predict (sagemaker_client.py lines 120-157): invoke the
endpoint, decode the body, and return the dict of line 149 with the
decoded prediction, the measured processing_time_ms and the response
metadata. Transport and decoding failures propagate (the except clause of
line 155 re-raises). -/
def predict (c : SageMakerClient) (input_data : Value) :
    Except String (List (String × Value)) :=
  match c.invoke_endpoint input_data with
  | Except.error e => Except.error e
  | Except.ok out =>
      Except.ok [("prediction", out.body),
                 ("processing_time_ms", Value.num (Int.ofNat out.elapsed_ms)),
                 ("response_metadata", out.metadata)]

/-- SageMakerClient.process_response (sagemaker_client.py lines 159-186):
read the "prediction" field (absent reads as None); if it is a non-empty
list take its first element, otherwise return it unchanged. -/
def process_response (prediction_response : List (String × Value)) : Value :=
  match getVal prediction_response "prediction" with
  | Value.list (first :: _) => first
  | p => p

/-- The degraded metadata dict built at sagemaker_client.py lines 197-201
and 233-237: only an error string, the model name and the region. -/
def degraded_info (c : SageMakerClient) (e : String) : Value :=
  Value.dict [("error", Value.str e),
              ("model_name", Value.str c.model_name),
              ("region", Value.str c.region)]

/-- Python truthiness test "not self.endpoint_name": unset or empty. -/
def endpointUnset : Option String → Bool
  | none => true
  | some s => s.isEmpty

/-- The body of the try block of SageMakerClient.get_model_info
(sagemaker_client.py lines 195-229): early degraded return when the
endpoint name is unset, then the two control-plane calls, instance type
read from the first production variant when variants exist. -/
def get_model_info_try (c : SageMakerClient) : Except String Value :=
  match c.endpoint_name with
  | none => Except.ok (c.degraded_info "Endpoint name not configured")
  | some ep =>
      if ep.isEmpty then Except.ok (c.degraded_info "Endpoint name not configured")
      else
        match c.describe_endpoint ep with
        | Except.error e => Except.error e
        | Except.ok resp =>
            match c.describe_endpoint_config resp.endpointConfigName with
            | Except.error e => Except.error e
            | Except.ok cfg =>
                let instance_type : Option String :=
                  match cfg.productionVariants with
                  | [] => none
                  | v :: _ => v.instanceType
                let optStr : Option String → Value := fun
                  | none => Value.null
                  | some s => Value.str s
                Except.ok (Value.dict [
                  ("model_name", Value.str c.model_name),
                  ("model_type", Value.str "Hugging Face Question-Answering"),
                  ("model_id", Value.str "distilbert-base-uncased-distilled-squad"),
                  ("endpoint_name", Value.str ep),
                  ("region", Value.str c.region),
                  ("status", Value.str resp.endpointStatus),
                  ("instance_type", optStr instance_type),
                  ("created_at", optStr resp.creationTime),
                  ("last_modified", optStr resp.lastModifiedTime),
                  ("endpoint_arn", optStr resp.endpointArn)])

/-- SageMakerClient.get_model_info (sagemaker_client.py lines 188-237): the
try body with every exception caught and turned into the degraded dict of
line 233. Total by construction: this function never raises. -/
def get_model_info (c : SageMakerClient) : Value :=
  match get_model_info_try c with
  | Except.ok v => v
  | Except.error e => c.degraded_info e

end SageMakerClient

/-- PredictionRequest (models.py lines 11-24). request_id is a plain string:
the source gives it a generated-uuid default, so it is always present.
The metadata field is opaque and unused by every handler. -/
structure PredictionRequest where
  data : Value
  request_id : String
  metadata : Option Value := none

/-- PredictionResponse (models.py lines 48-73). None-able prediction is
Value.null; error and processing_time_ms default to none as in the source.
The timestamp field (a wall-clock default) carries no verified content and
is omitted. -/
structure PredictionResponse where
  prediction : Value := Value.null
  model_name : String
  request_id : String
  error : Option String := none
  processing_time_ms : Option Nat := none

namespace Main

/-- The per-item pipeline shared verbatim by the predict handler
(main.py lines 72-78) and the body of the batch loop (main.py
lines 102-108): prepare_input, then SageMakerClient.predict, then
process_response. Any exception propagates to the caller. -/
def run_pipeline (c : SageMakerClient) (data : Value) : Except String Value :=
  match SageMakerClient.prepare_input data with
  | Except.error e => Except.error e
  | Except.ok input_data =>
      match c.predict input_data with
      | Except.error e => Except.error e
      | Except.ok prediction =>
          Except.ok (SageMakerClient.process_response prediction)

/-- One iteration of the batch loop of predict_batch (main.py lines 99-123):
on pipeline success append a response with the prediction, the model name
and the request id (error and processing_time_ms left at their defaults);
on any exception append a response with null prediction and the exception
message as error. -/
def process_item (c : SageMakerClient) (request : PredictionRequest) :
    PredictionResponse :=
  match run_pipeline c request.data with
  | Except.ok response_data =>
      { prediction := response_data
        model_name := c.model_name
        request_id := request.request_id }
  | Except.error e =>
      { prediction := Value.null
        model_name := c.model_name
        request_id := request.request_id
        error := some e }

/-- The predict handler (main.py lines 63-88): run the pipeline once; on
success return the assembled PredictionResponse, on failure raise
HTTPException 500 with the message of line 88. -/
def predict (c : SageMakerClient) (request : PredictionRequest) :
    Except String PredictionResponse :=
  match run_pipeline c request.data with
  | Except.ok response_data =>
      Except.ok { prediction := response_data
                  model_name := c.model_name
                  request_id := request.request_id }
  | Except.error e => Except.error ("Prediction failed: " ++ e)

/-- The predict_batch handler (main.py lines 90-129): start from an empty
results list and append one response per request, in order, each produced
by the guarded loop body. -/
def predict_batch (c : SageMakerClient) (requests : List PredictionRequest) :
    List PredictionResponse :=
  requests.foldl (fun results request => results ++ [process_item c request]) []

end Main

/-- True exactly when the value is a mapping whose only top-level key is
"inputs": the envelope shape the specification asserts for every
normalized payload. -/
def singleKeyInputs : Value → Bool
  | Value.dict [(k, _)] => k == "inputs"
  | _ => false

/-- True exactly for the non-mapping payload shapes the specification
enumerates: a string, a number, or an ordered sequence. -/
def scalarOrSeq : Value → Bool
  | Value.str _ => true
  | Value.num _ => true
  | Value.list _ => true
  | _ => false

/-- Concrete client used by witnesses: the runtime oracle always succeeds
with a fixed decoded body and a measured 5 ms elapsed time, while both
control-plane oracles fail. -/
def okClient : SageMakerClient where
  endpoint_name := some "qa-endpoint"
  region := "eu-north-1"
  model_name := "distilbert-base-uncased-distilled-squad"
  invoke_endpoint := fun _ => Except.ok ⟨Value.str "ans", 5, Value.dict []⟩
  describe_endpoint := fun _ => Except.error "AccessDeniedException"
  describe_endpoint_config := fun _ => Except.error "AccessDeniedException"

/-- Concrete client whose endpoint name was never configured. -/
def unconfiguredClient : SageMakerClient :=
  { okClient with endpoint_name := none }

/-- Concrete three-item batch whose middle item carries data json.dumps
cannot encode, while items one and three are plain strings. -/
def mixedBatch : List PredictionRequest :=
  [ { data := Value.str "payload-a", request_id := "r1" },
    { data := Value.unserial "set", request_id := "r2" },
    { data := Value.str "payload-c", request_id := "r3" } ]

/-! Helper lemmas shared by the claim theorems. -/

theorem foldl_append_singleton_eq_map {α β : Type} (f : α → β)
    (l : List α) (acc : List β) :
    l.foldl (fun r x => r ++ [f x]) acc = acc ++ l.map f := by
  induction l generalizing acc with
  | nil => simp
  | cons x xs ih => simp [ih]

/-- The batch loop of main.py lines 98-125 appends exactly one response per
request: it is the elementwise image of the guarded loop body. -/
theorem predict_batch_eq_map (c : SageMakerClient)
    (reqs : List PredictionRequest) :
    Main.predict_batch c reqs = reqs.map (Main.process_item c) := by
  unfold Main.predict_batch
  simpa using foldl_append_singleton_eq_map (Main.process_item c) reqs []

theorem process_item_model_name (c : SageMakerClient) (r : PredictionRequest) :
    (Main.process_item c r).model_name = c.model_name := by
  unfold Main.process_item
  cases Main.run_pipeline c r.data <;> rfl

theorem process_item_request_id (c : SageMakerClient) (r : PredictionRequest) :
    (Main.process_item c r).request_id = r.request_id := by
  unfold Main.process_item
  cases Main.run_pipeline c r.data <;> rfl

theorem process_item_processing_time (c : SageMakerClient)
    (r : PredictionRequest) :
    (Main.process_item c r).processing_time_ms = none := by
  unfold Main.process_item
  cases Main.run_pipeline c r.data <;> rfl

/-- C1: in the batch handler, an item whose pipeline (normalization,
invocation, or response processing) raises is caught locally: that item's
output has a null prediction and the exception message as its error, every
item of the batch is still processed independently by the same loop body
(so no single failure aborts or short-circuits the batch), and model_name
and request_id are populated on every output item, failed ones included. -/
theorem c1_batch_error_isolation (c : SageMakerClient)
    (reqs : List PredictionRequest) (i : Nat) (req : PredictionRequest)
    (e : String) (hreq : reqs[i]? = some req)
    (hfail : Main.run_pipeline c req.data = Except.error e) :
    (Main.predict_batch c reqs)[i]? = some
      { prediction := Value.null, model_name := c.model_name,
        request_id := req.request_id, error := some e } ∧
    (∀ (j : Nat) (r : PredictionRequest), reqs[j]? = some r →
       (Main.predict_batch c reqs)[j]? = some (Main.process_item c r) ∧
       (Main.process_item c r).model_name = c.model_name ∧
       (Main.process_item c r).request_id = r.request_id) := by
  constructor
  · rw [predict_batch_eq_map, List.getElem?_map, hreq, Option.map_some']
    unfold Main.process_item
    rw [hfail]
  · intro j r hr
    refine ⟨?_, process_item_model_name c r, process_item_request_id c r⟩
    rw [predict_batch_eq_map, List.getElem?_map, hr, Option.map_some']

/-- Witness for C1: in the concrete three-item batch whose middle item holds
unencodable data, the middle output records the serialization failure. -/
theorem c1_batch_error_isolation_witness :
    (Main.predict_batch okClient mixedBatch)[1]? = some
      { prediction := Value.null,
        model_name := "distilbert-base-uncased-distilled-squad",
        request_id := "r2",
        error := some "Failed to prepare input data: Object of type set is not JSON serializable" } :=
  (c1_batch_error_isolation okClient mixedBatch 1
    { data := Value.unserial "set", request_id := "r2" }
    "Failed to prepare input data: Object of type set is not JSON serializable"
    rfl rfl).1

/-- C2: the batch handler returns one output per input, in order: the output
list has the length of the input list and the output at every index
carries the request_id of the input at that index. -/
theorem c2_batch_length_order (c : SageMakerClient)
    (reqs : List PredictionRequest) :
    (Main.predict_batch c reqs).length = reqs.length ∧
    ∀ (i : Nat) (req : PredictionRequest), reqs[i]? = some req →
      ∃ resp, (Main.predict_batch c reqs)[i]? = some resp ∧
        resp.request_id = req.request_id := by
  rw [predict_batch_eq_map]
  refine ⟨by simp, ?_⟩
  intro i req h
  exact ⟨Main.process_item c req,
    by rw [List.getElem?_map, h, Option.map_some'],
    process_item_request_id c req⟩

/-- Witness for C2 at index 2 of the concrete batch. -/
theorem c2_batch_length_order_witness :
    ∃ resp, (Main.predict_batch okClient mixedBatch)[2]? = some resp ∧
      resp.request_id = "r3" :=
  (c2_batch_length_order okClient mixedBatch).2 2
    { data := Value.str "payload-c", request_id := "r3" } rfl

/-- C3: a mapping with both "question" and "context" keys and no "inputs"
key normalizes to exactly the two-field envelope built from its values at
those two keys; every other key of the payload is discarded. -/
theorem c3_question_context_envelope (kvs : List (String × Value))
    (hni : containsKey kvs "inputs" = false)
    (hq : containsKey kvs "question" = true)
    (hc : containsKey kvs "context" = true) :
    SageMakerClient.prepare_envelope (Value.dict kvs) =
      Value.dict [("inputs",
        Value.dict [("question", getVal kvs "question"),
                    ("context", getVal kvs "context")])] := by
  simp [SageMakerClient.prepare_envelope, hni, hq, hc]

/-- Witness for C3: a payload with an extra key loses it. -/
theorem c3_question_context_envelope_witness :
    SageMakerClient.prepare_envelope (Value.dict
      [("question", Value.str "q1"), ("context", Value.str "c1"),
       ("extra", Value.num 7)]) =
      Value.dict [("inputs",
        Value.dict [("question", Value.str "q1"),
                    ("context", Value.str "c1")])] :=
  c3_question_context_envelope
    [("question", Value.str "q1"), ("context", Value.str "c1"),
     ("extra", Value.num 7)]
    rfl rfl rfl

/-- C4 fails as stated: a payload that already carries an "inputs" key plus
a sibling key is passed through unchanged by branch 1, so the produced
envelope keeps the sibling key and does not have "inputs" as its only
top-level key. -/
theorem c4_counterexample :
    singleKeyInputs (SageMakerClient.prepare_envelope
      (Value.dict [("inputs", Value.str "x"), ("question", Value.str "q")]))
      = false := by
  decide

/-- C4 amended: the envelope always is a mapping containing the key
"inputs"; and whenever the payload is not a mapping that already contains
an "inputs" key, the envelope has "inputs" as its only top-level key. A
mapping payload that does contain "inputs" is used unchanged, sibling keys
included. -/
theorem c4_envelope_inputs_key (v : Value) :
    (∃ kvs, SageMakerClient.prepare_envelope v = Value.dict kvs ∧
       containsKey kvs "inputs" = true) ∧
    ((∀ kvs, v = Value.dict kvs → containsKey kvs "inputs" = false) →
       singleKeyInputs (SageMakerClient.prepare_envelope v) = true) := by
  constructor
  · cases v with
    | dict kvs =>
        by_cases h : containsKey kvs "inputs" = true
        · exact ⟨kvs, by simp [SageMakerClient.prepare_envelope, h], h⟩
        · by_cases h2 : (containsKey kvs "question"
              && containsKey kvs "context") = true
          · refine ⟨[("inputs",
              Value.dict [("question", getVal kvs "question"),
                          ("context", getVal kvs "context")])],
              ?_, by simp [containsKey]⟩
            simp [SageMakerClient.prepare_envelope, h, h2]
          · refine ⟨[("inputs", Value.dict kvs)], ?_, by simp [containsKey]⟩
            simp [SageMakerClient.prepare_envelope, h, h2]
    | null => exact ⟨_, rfl, by simp [containsKey]⟩
    | bool b => exact ⟨_, rfl, by simp [containsKey]⟩
    | num n => exact ⟨_, rfl, by simp [containsKey]⟩
    | str s => exact ⟨_, rfl, by simp [containsKey]⟩
    | list vs => exact ⟨_, rfl, by simp [containsKey]⟩
    | unserial t => exact ⟨_, rfl, by simp [containsKey]⟩
  · intro hno
    cases v with
    | dict kvs =>
        have h := hno kvs rfl
        by_cases h2 : (containsKey kvs "question"
            && containsKey kvs "context") = true
        · simp [SageMakerClient.prepare_envelope, h, h2, singleKeyInputs]
        · simp [SageMakerClient.prepare_envelope, h, h2, singleKeyInputs]
    | null => simp [SageMakerClient.prepare_envelope, singleKeyInputs]
    | bool b => simp [SageMakerClient.prepare_envelope, singleKeyInputs]
    | num n => simp [SageMakerClient.prepare_envelope, singleKeyInputs]
    | str s => simp [SageMakerClient.prepare_envelope, singleKeyInputs]
    | list vs => simp [SageMakerClient.prepare_envelope, singleKeyInputs]
    | unserial t => simp [SageMakerClient.prepare_envelope, singleKeyInputs]

/-- Witness for C4 amended at a non-mapping payload. -/
theorem c4_envelope_inputs_key_witness :
    singleKeyInputs (SageMakerClient.prepare_envelope (Value.str "hello"))
      = true :=
  (c4_envelope_inputs_key (Value.str "hello")).2 (fun _ h => nomatch h)

/-- C5: a mapping that already has an "inputs" key takes branch 1 even when
"question" and "context" are also present, passing through unchanged, so
normalization is idempotent on such mappings. -/
theorem c5_inputs_branch_idempotent (kvs : List (String × Value))
    (h : containsKey kvs "inputs" = true) :
    SageMakerClient.prepare_envelope (Value.dict kvs) = Value.dict kvs ∧
    SageMakerClient.prepare_envelope
        (SageMakerClient.prepare_envelope (Value.dict kvs)) =
      SageMakerClient.prepare_envelope (Value.dict kvs) := by
  have h1 : SageMakerClient.prepare_envelope (Value.dict kvs)
      = Value.dict kvs := by
    simp [SageMakerClient.prepare_envelope, h]
  exact ⟨h1, by rw [h1]; exact h1⟩

/-- Witness for C5 at a mapping holding "inputs" next to "question". -/
theorem c5_inputs_branch_idempotent_witness :
    SageMakerClient.prepare_envelope
      (Value.dict [("inputs", Value.str "x"), ("question", Value.str "q")]) =
    Value.dict [("inputs", Value.str "x"), ("question", Value.str "q")] :=
  (c5_inputs_branch_idempotent
    [("inputs", Value.str "x"), ("question", Value.str "q")] rfl).1

/-- C6: response projection returns the first element when the "prediction"
field holds a non-empty list, returns the value unchanged when it does
not, and returns null when the field is null or absent. -/
theorem c6_projection_first_element (resp : List (String × Value)) :
    (∀ (first : Value) (rest : List Value),
       getVal resp "prediction" = Value.list (first :: rest) →
       SageMakerClient.process_response resp = first) ∧
    ((∀ (first : Value) (rest : List Value),
       getVal resp "prediction" ≠ Value.list (first :: rest)) →
       SageMakerClient.process_response resp = getVal resp "prediction") ∧
    (getVal resp "prediction" = Value.null →
       SageMakerClient.process_response resp = Value.null) ∧
    (lookupKey resp "prediction" = none →
       SageMakerClient.process_response resp = Value.null) := by
  refine ⟨?_, ?_, ?_, ?_⟩
  · intro first rest h
    unfold SageMakerClient.process_response
    rw [h]
  · intro h
    unfold SageMakerClient.process_response
    cases hv : getVal resp "prediction" with
    | list l =>
        cases l with
        | nil => rfl
        | cons a as => exact absurd hv (h a as)
    | null => rfl
    | bool b => rfl
    | num n => rfl
    | str s => rfl
    | dict kvs => rfl
    | unserial t => rfl
  · intro h
    unfold SageMakerClient.process_response
    rw [h]
  · intro h
    unfold SageMakerClient.process_response
    simp [getVal, h]

/-- Witness for C6: the one-element wrapped answer object is unwrapped. -/
theorem c6_projection_first_element_witness :
    SageMakerClient.process_response
      [("prediction", Value.list [Value.dict [("answer", Value.str "Paris")]])]
      = Value.dict [("answer", Value.str "Paris")] :=
  (c6_projection_first_element
    [("prediction", Value.list [Value.dict [("answer", Value.str "Paris")]])]).1
    (Value.dict [("answer", Value.str "Paris")]) [] rfl

/-- C7: get_model_info is total (it returns a Value on every input, so it
never raises) and on every failure path — endpoint name unset or empty, a
failing describe_endpoint call, or a failing describe_endpoint_config
call — it returns the degraded dict carrying only the error string, the
model name and the region. -/
theorem c7_model_info_degrades (c : SageMakerClient) :
    (SageMakerClient.endpointUnset c.endpoint_name = true →
       SageMakerClient.get_model_info c =
         Value.dict [("error", Value.str "Endpoint name not configured"),
                     ("model_name", Value.str c.model_name),
                     ("region", Value.str c.region)]) ∧
    (∀ (ep e : String), c.endpoint_name = some ep → ep.isEmpty = false →
       c.describe_endpoint ep = Except.error e →
       SageMakerClient.get_model_info c =
         Value.dict [("error", Value.str e),
                     ("model_name", Value.str c.model_name),
                     ("region", Value.str c.region)]) ∧
    (∀ (ep : String) (desc : EndpointDesc) (e : String),
       c.endpoint_name = some ep → ep.isEmpty = false →
       c.describe_endpoint ep = Except.ok desc →
       c.describe_endpoint_config desc.endpointConfigName = Except.error e →
       SageMakerClient.get_model_info c =
         Value.dict [("error", Value.str e),
                     ("model_name", Value.str c.model_name),
                     ("region", Value.str c.region)]) := by
  refine ⟨?_, ?_, ?_⟩
  · intro h
    unfold SageMakerClient.get_model_info SageMakerClient.get_model_info_try
    cases hep : c.endpoint_name with
    | none => rfl
    | some s =>
        have hs : s.isEmpty = true := by
          rw [hep] at h
          simpa [SageMakerClient.endpointUnset] using h
        simp [hs, SageMakerClient.degraded_info]
  · intro ep e hep hne hde
    unfold SageMakerClient.get_model_info SageMakerClient.get_model_info_try
    rw [hep]
    simp [hne, hde, SageMakerClient.degraded_info]
  · intro ep desc e hep hne hde hdc
    unfold SageMakerClient.get_model_info SageMakerClient.get_model_info_try
    rw [hep]
    simp [hne, hde, hdc, SageMakerClient.degraded_info]

/-- Witness for C7 at a client with no configured endpoint name. -/
theorem c7_model_info_degrades_witness :
    SageMakerClient.get_model_info unconfiguredClient =
      Value.dict [("error", Value.str "Endpoint name not configured"),
                  ("model_name",
                   Value.str "distilbert-base-uncased-distilled-squad"),
                  ("region", Value.str "eu-north-1")] :=
  (c7_model_info_degrades unconfiguredClient).1 rfl

/-- C8: when the normalized envelope holds content json.dumps cannot encode,
prepare_input raises the ValueError of sagemaker_client.py line 118, whose
message names the type of the offending content, and returns no
envelope. -/
theorem c8_encode_failure_raises (data : Value) (t : String)
    (h : firstUnserial (SageMakerClient.prepare_envelope data) = some t) :
    SageMakerClient.prepare_input data =
      Except.error ("Failed to prepare input data: Object of type " ++ t
        ++ " is not JSON serializable") ∧
    ∀ env, SageMakerClient.prepare_input data ≠ Except.ok env := by
  have h1 : SageMakerClient.prepare_input data =
      Except.error ("Failed to prepare input data: Object of type " ++ t
        ++ " is not JSON serializable") := by
    simp [SageMakerClient.prepare_input, h]
  refine ⟨h1, fun env hc => ?_⟩
  rw [h1] at hc
  exact Except.noConfusion hc

/-- Witness for C8 at a payload holding a Python set. -/
theorem c8_encode_failure_raises_witness :
    SageMakerClient.prepare_input (Value.unserial "set") =
      Except.error
        "Failed to prepare input data: Object of type set is not JSON serializable" :=
  (c8_encode_failure_raises (Value.unserial "set") "set" rfl).1

/-- C9: a non-mapping payload (string, number, or sequence) normalizes to
exactly the payload wrapped unchanged under the single "inputs" key. -/
theorem c9_non_mapping_wrapped (v : Value) (h : scalarOrSeq v = true) :
    SageMakerClient.prepare_envelope v = Value.dict [("inputs", v)] := by
  cases v with
  | str s => rfl
  | num n => rfl
  | list vs => rfl
  | null => exact absurd h (by simp [scalarOrSeq])
  | bool b => exact absurd h (by simp [scalarOrSeq])
  | dict kvs => exact absurd h (by simp [scalarOrSeq])
  | unserial t => exact absurd h (by simp [scalarOrSeq])

/-- Witness for C9 at a bare number. -/
theorem c9_non_mapping_wrapped_witness :
    SageMakerClient.prepare_envelope (Value.num 3) =
      Value.dict [("inputs", Value.num 3)] :=
  c9_non_mapping_wrapped (Value.num 3) rfl

/-- C10: the invoker returns the measured elapsed time under the
processing_time_ms key of its result dict, but neither the single
prediction handler nor the batch handler ever copies it into a
PredictionResponse: the processing_time_ms field stays at its null
default on every output item of both paths. -/
theorem c10_processing_time_dropped (c : SageMakerClient)
    (reqs : List PredictionRequest) (req : PredictionRequest)
    (input : Value) (out : InvokeOutcome) (resp : PredictionResponse)
    (hinv : c.invoke_endpoint input = Except.ok out)
    (hok : Main.predict c req = Except.ok resp) :
    c.predict input = Except.ok
      [("prediction", out.body),
       ("processing_time_ms", Value.num (Int.ofNat out.elapsed_ms)),
       ("response_metadata", out.metadata)] ∧
    resp.processing_time_ms = none ∧
    ∀ r ∈ Main.predict_batch c reqs, r.processing_time_ms = none := by
  refine ⟨?_, ?_, ?_⟩
  · simp [SageMakerClient.predict, hinv]
  · unfold Main.predict at hok
    cases hp : Main.run_pipeline c req.data with
    | ok v =>
        rw [hp] at hok
        simp only [Except.ok.injEq] at hok
        rw [← hok]
    | error e =>
        rw [hp] at hok
        exact Except.noConfusion hok
  · intro r hr
    rw [predict_batch_eq_map] at hr
    obtain ⟨q, _, rfl⟩ := List.mem_map.mp hr
    exact process_item_processing_time c q

/-- Witness for C10: the concrete client measures 5 ms and reports it in the
invoker result, yet the assembled responses carry no processing time. -/
theorem c10_processing_time_dropped_witness :
    SageMakerClient.predict okClient (Value.str "payload-a") = Except.ok
      [("prediction", Value.str "ans"),
       ("processing_time_ms", Value.num 5),
       ("response_metadata", Value.dict [])] ∧
    ({ prediction := Value.str "ans",
       model_name := "distilbert-base-uncased-distilled-squad",
       request_id := "r1" } : PredictionResponse).processing_time_ms = none ∧
    ∀ r ∈ Main.predict_batch okClient mixedBatch,
      r.processing_time_ms = none :=
  c10_processing_time_dropped okClient mixedBatch
    { data := Value.str "payload-a", request_id := "r1" }
    (Value.str "payload-a") ⟨Value.str "ans", 5, Value.dict []⟩
    { prediction := Value.str "ans",
      model_name := "distilbert-base-uncased-distilled-squad",
      request_id := "r1" }
    rfl rfl
